import Mathlib

/-!
Verification of the Auto_Bangumi release-title parsing pipeline and the
access-control layer, against the repository's specification.

The parser modules (`module.parser.analyser.raw_parser`, `module.manager.renamer`,
`module.rss.engine`) are exercised by the repository's test suite; their
behaviour is embedded here as executable Lean functions.  The MCP access-control
code (`module/mcp/security.py`, `module/security/api.py`) is embedded directly
from its source.
-/

/-- Characters treated as bracket delimiters by the group extractor:
ASCII square brackets and their full-width CJK counterparts. -/
def isBrChar (c : Char) : Bool :=
  c = '[' || c = ']' || c = '【' || c = '】'

/-- Generic character-list splitter: cuts the second argument at every
character satisfying `p`, accumulating the current segment (reversed) in the
first argument.  Mirrors Python's `re.split` on a character class. -/
def splitOnAux (p : Char → Bool) : List Char → List Char → List (List Char)
  | acc, [] => [acc.reverse]
  | acc, c :: rest =>
    if p c then acc.reverse :: splitOnAux p [] rest
    else splitOnAux p (c :: acc) rest

/-- Split a character list on bracket delimiters. -/
def splitBr (l : List Char) : List (List Char) :=
  splitOnAux isBrChar [] l

/-- Whitespace characters stripped by trimming. -/
def isSpaceChar (c : Char) : Bool :=
  c = ' ' || c = '\n' || c = '\t' || c = '\r'

/-- Strip leading and trailing whitespace from a character list. -/
def charTrim (l : List Char) : List Char :=
  ((l.dropWhile isSpaceChar).reverse.dropWhile isSpaceChar).reverse

/-- String-level trim on top of `charTrim`. -/
def strTrim (s : String) : String :=
  ⟨charTrim s.data⟩

/-- Modelled from the spec: `get_group` of the absent
`module.parser.analyser.raw_parser` (spec 4.1).  Splits the input on bracket
characters; when at least two segments result, the first non-empty segment,
trimmed of whitespace, is the release group; otherwise the group degrades to
the empty string.  The function is total, so malformed bracket nesting can
never raise. -/
def get_group (title : String) : String :=
  let segs := splitBr title.data
  if 2 ≤ segs.length then
    match segs.find? (fun seg => !seg.isEmpty) with
    | some seg => strTrim ⟨seg⟩
    | none => ""
  else ""

/-- A character list is bracket-free when no character is a bracket delimiter. -/
def bracketFree (l : List Char) : Bool :=
  l.all (fun c => !isBrChar c)

/-- Numeric value of a decimal digit run (most significant first). -/
def digitsVal (l : List Char) : Nat :=
  l.foldl (fun acc c => acc * 10 + (c.toNat - 48)) 0

/-- Opening bracket characters that may introduce the release-group tag. -/
def isOpenBr (c : Char) : Bool :=
  c = '[' || c = '【'

/-- Closing bracket characters ending the release-group tag. -/
def isCloseBr (c : Char) : Bool :=
  c = ']' || c = '】'

/-- Drop characters up to and including the first closing bracket. -/
def dropAfterClose : List Char → List Char
  | [] => []
  | c :: rest => if isCloseBr c then rest else dropAfterClose rest

/-- Modelled from the spec: removal of the leading release-group tag before
template matching (spec 2 stage 1 / 4.2).  When the title (after leading
spaces) starts with an opening bracket, everything through the matching
closing bracket is dropped; otherwise (Western no-bracket convention) the
title is left unchanged. -/
def dropGroupTag (l : List Char) : List Char :=
  match l.dropWhile (fun c => c = ' ') with
  | [] => []
  | c :: rest => if isOpenBr c then dropAfterClose rest else l

/-- Characters that may legally follow the digit run of a dash-delimited
episode token (structural delimiter per the numeric-prefix guard of spec 4.2). -/
def epBoundary : List Char → Bool
  | [] => true
  | c :: _ => c = ' ' || c = '[' || c = '(' || c = '【' || c = '.'

/-- Modelled from the spec: the dominant dash-delimited episode template of the
Structural Splitter (spec 4.2).  Scans for a `" - "` delimiter (dash with
spaces, the structural delimiter required by the numeric-prefix guard)
followed by a digit run and a boundary; on success returns the trimmed name
block, the episode value and the trailing metadata block.  A leading digit run
inside the title can never be consumed as the episode, because the template
requires the dash delimiter immediately before the episode token. -/
def findDashEp : List Char → List Char → Option (List Char × Nat × List Char)
  | _, [] => none
  | acc, ' ' :: '-' :: ' ' :: after =>
    let ds := after.takeWhile Char.isDigit
    let tail := after.dropWhile Char.isDigit
    if !ds.isEmpty && epBoundary tail then
      some (charTrim acc.reverse, digitsVal ds, tail)
    else findDashEp (' ' :: acc) ('-' :: ' ' :: after)
  | acc, c :: rest => findDashEp (c :: acc) rest

/-- Modelled from the spec: episode-tag recognition for the bracketed episode
template (spec 4.2).  A bracket segment is an episode tag when it is a pure
digit run, or a digit run followed by a parenthesised digit run — the compound
notation `NN(MM)`, whose first number is the canonical episode.  Segments such
as `01Pre` or `04_半神们的卡农曲` are not episode tags, which is what makes the
pre-air and Atlas conventions unsupported. -/
def epTag (seg : List Char) : Option Nat :=
  let ds := seg.takeWhile Char.isDigit
  let rest := seg.dropWhile Char.isDigit
  if ds.isEmpty then none
  else
    match rest with
    | [] => some (digitsVal ds)
    | '(' :: r2 =>
      let ds2 := r2.takeWhile Char.isDigit
      if !ds2.isEmpty && r2.dropWhile Char.isDigit = [')'] then
        some (digitsVal ds)
      else none
    | _ => none

/-- Modelled from the spec: the bracket-delimited episode template (spec 4.2).
Walks the bracket segments keeping the last non-empty segment seen; the first
segment recognised as an episode tag yields the episode, with the preceding
segment as the name block. -/
def findBracketEp : List Char → List (List Char) → Option (List Char × Nat)
  | _, [] => none
  | prev, seg :: rest =>
    match epTag seg with
    | some e => some (prev, e)
    | none => findBracketEp (if seg.isEmpty then prev else seg) rest

/-- Modelled from the spec: the `第N话`/`第N集` Chinese episode-marker template
(spec 4.2). -/
def findChineseEp : List Char → List Char → Option (List Char × Nat × List Char)
  | _, [] => none
  | acc, c :: rest =>
    if c = '第' then
      let ds := rest.takeWhile Char.isDigit
      let tail := rest.dropWhile Char.isDigit
      match ds, tail with
      | _ :: _, m :: t2 =>
        if m = '话' || m = '集' then some (charTrim acc.reverse, digitsVal ds, t2)
        else findChineseEp (c :: acc) rest
      | _, _ => findChineseEp (c :: acc) rest
    else findChineseEp (c :: acc) rest

/-- Modelled from the spec: the Structural Splitter cascade (spec 4.2).
Templates are tried in a fixed priority order — dash-delimited episode first
(the dominant convention), then the bracketed episode tag, then the Chinese
episode marker — and the first template that matches wins.  `none` is the
authoritative "unparseable title" signal; the documented unsupported
conventions (`[group][title][ep_text]`, `[NNPre]`) match no template. -/
def splitStructure (l : List Char) : Option (List Char × Nat × List Char) :=
  match findDashEp [] l with
  | some r => some r
  | none =>
    match findBracketEp [] (splitBr l) with
    | some (name, e) => some (name, e, l)
    | none => findChineseEp [] l

/-- Modelled from the spec: the static Chinese-numeral lookup table
(spec 9, 一→1 … 十→10; multi-character numerals deliberately not inferred). -/
def chineseNumeral (c : Char) : Option Nat :=
  if c = '一' then some 1 else if c = '二' then some 2
  else if c = '三' then some 3 else if c = '四' then some 4
  else if c = '五' then some 5 else if c = '六' then some 6
  else if c = '七' then some 7 else if c = '八' then some 8
  else if c = '九' then some 9 else if c = '十' then some 10
  else none

/-- English ordinal suffix check for a season token such as `2nd Season`. -/
def ordinalOk (d a b : Char) : Bool :=
  (d = '1' && a = 's' && b = 't') || (d = '2' && a = 'n' && b = 'd') ||
  (d = '3' && a = 'r' && b = 'd') || (a = 't' && b = 'h')

/-- Modelled from the spec: recognition of one explicit season marker at the
head of the character list (spec 4.4 / 4.3): `第N季` with N a Chinese numeral
or one or two decimal digits, the English `Season N` form, and the English
ordinal form `Nst/Nnd/Nrd/Nth Season`.  Returns the season value together with
the token length (used for stripping the marker from the title text). -/
def seasonTokenLen (l : List Char) : Option (Nat × Nat) :=
  match l with
  | '第' :: c :: '季' :: _ =>
    (match chineseNumeral c with
     | some v => some (v, 3)
     | none => if c.isDigit then some (c.toNat - 48, 3) else none)
  | '第' :: d1 :: d2 :: '季' :: _ =>
    if d1.isDigit && d2.isDigit then
      some (10 * (d1.toNat - 48) + (d2.toNat - 48), 4)
    else none
  | _ =>
    if "Season ".data.isPrefixOf l then
      let after := l.drop 7
      let ds := after.takeWhile Char.isDigit
      if ds.isEmpty then none else some (digitsVal ds, 7 + ds.length)
    else
      match l with
      | d :: a :: b :: rest =>
        if d.isDigit && ordinalOk d a b && " Season".data.isPrefixOf rest then
          some (d.toNat - 48, 10)
        else none
      | _ => none

/-- Modelled from the spec: season extraction (spec 4.4) — season markers are
searched for anywhere in the title; the first marker found wins. -/
def findSeason : List Char → Option Nat
  | [] => none
  | c :: rest =>
    match seasonTokenLen (c :: rest) with
    | some (v, _) => some v
    | none => findSeason rest

/-- Modelled from the spec: stripping of the first season marker from the name
block after its value has been folded into the season field (spec 4.3). -/
def stripSeasonChars : List Char → List Char
  | [] => []
  | c :: rest =>
    match seasonTokenLen (c :: rest) with
    | some (_, k) => (c :: rest).drop k
    | none => c :: stripSeasonChars rest

/-- CJK unified-ideograph range (spec 9: explicit Unicode block range checks). -/
def isHan (c : Char) : Bool :=
  0x4E00 ≤ c.toNat && c.toNat ≤ 0x9FFF

/-- Japanese kana ranges. -/
def isKana (c : Char) : Bool :=
  0x3040 ≤ c.toNat && c.toNat ≤ 0x30FF

/-- A CJK character is a Han ideograph or a kana character. -/
def isCJKChar (c : Char) : Bool :=
  isHan c || isKana c

/-- Latin letters; decimal digits and punctuation are script-neutral, which is
why a numeric title prefix such as `29 ` stays inside the CJK title. -/
def isLatinLetter (c : Char) : Bool :=
  ('A' ≤ c && c ≤ 'Z') || ('a' ≤ c && c ≤ 'z')

/-- A whitespace token opens with a CJK run of length at least two. -/
def startsCJK2 : List Char → Bool
  | a :: b :: _ => isCJKChar a && isCJKChar b
  | _ => false

/-- Join whitespace tokens back together with single spaces. -/
def joinSpace : List (List Char) → List Char
  | [] => []
  | [t] => t
  | t :: rest => t ++ ' ' :: joinSpace rest

/-- Per-language titles produced by the Name Processor: Chinese, English,
Japanese, each absent when undetectable (spec 4.3). -/
structure NameSplit where
  title_zh : Option String
  title_en : Option String
  title_jp : Option String
deriving Repr, DecidableEq

/-- Classify one side of a `/`-separated name block by script content
(spec 4.3): kana puts it in the Japanese slot, Han ideographs in the Chinese
slot, Latin letters in the English slot. -/
def classifySide (s : List Char) : NameSplit :=
  if s.any isKana then ⟨none, none, some ⟨s⟩⟩
  else if s.any isHan then ⟨some ⟨s⟩, none, none⟩
  else if s.any isLatinLetter then ⟨none, some ⟨s⟩, none⟩
  else ⟨none, none, none⟩

/-- Merge two `NameSplit` values field-wise, preferring the first. -/
def mergeSplit (x y : NameSplit) : NameSplit :=
  ⟨x.title_zh <|> y.title_zh, x.title_en <|> y.title_en, x.title_jp <|> y.title_jp⟩

/-- Modelled from the spec: the mixed-script branch of the Name Processor for a
name block with no `/` separator containing both CJK and Latin letters
(spec 4.3, as pinned by the repository's regression tests for issues #766,
#798 and #990 in `test_raw_parser.py`).  The block is split on whitespace; a
token opening with at least two CJK characters at the first position — or
failing that at the last position — becomes the Chinese title, and the
remaining tokens, joined by spaces, become the English title.  When no such
token exists the whole block is kept as the Chinese title.  Note the spec's
prose (4.3) describes this branch as taking the first contiguous script run
and discarding the remainder, which the repository's own tests contradict;
the tests are followed here. -/
def mixedSplit (b : List Char) : NameSplit :=
  let toks := (splitOnAux (fun c => c = ' ') [] b).filter (fun t => !t.isEmpty)
  match toks with
  | [] => ⟨some ⟨b⟩, none, none⟩
  | t0 :: restToks =>
    if startsCJK2 t0 then ⟨some ⟨t0⟩, some ⟨joinSpace restToks⟩, none⟩
    else
      match restToks.getLast? with
      | some tl =>
        if startsCJK2 tl then
          ⟨some ⟨tl⟩, some ⟨joinSpace (t0 :: restToks.dropLast)⟩, none⟩
        else ⟨some ⟨b⟩, none, none⟩
      | none => ⟨some ⟨b⟩, none, none⟩

/-- Modelled from the spec: the Name Processor (spec 4.3).  A `/`-separated
block is split into a CJK-script side and a Latin-script side, each classified
independently; otherwise a pure-Latin block is the English title, a block with
no Latin letters is the Chinese title (decimal digits are script-neutral, so a
numeric prefix stays in the title), and a genuinely mixed block goes through
the conservative whitespace heuristic `mixedSplit`. -/
def nameProcess (blockChars : List Char) : NameSplit :=
  let b := charTrim blockChars
  match splitOnAux (fun c => c = '/') [] b with
  | left :: right :: _ => mergeSplit (classifySide (charTrim left)) (classifySide (charTrim right))
  | _ =>
    if !(b.any isCJKChar) then
      ⟨none, if b.any isLatinLetter then some ⟨b⟩ else none, none⟩
    else if !(b.any isLatinLetter) then ⟨some ⟨b⟩, none, none⟩
    else mixedSplit b

/-- Resolution token at the head of the list: a run of at least three decimal
digits directly followed by `p` or `P`, preserved verbatim (spec 4.4). -/
def resAt (l : List Char) : Option (List Char) :=
  let ds := l.takeWhile Char.isDigit
  if 3 ≤ ds.length then
    match l.drop ds.length with
    | c :: _ => if c = 'p' || c = 'P' then some (ds ++ [c]) else none
    | [] => none
  else none

/-- Modelled from the spec: the resolution normalizer (spec 4.4) — first
digits-plus-`p`/`P` token anywhere in the title, original case preserved. -/
def findResolution : List Char → Option String
  | [] => none
  | c :: rest =>
    match resAt (c :: rest) with
    | some r => some ⟨r⟩
    | none => findResolution rest

/-- Fixed vocabulary of known source tags (spec 4.4). -/
def sourceVocab : List (List Char) :=
  ["WebRip".data, "WEB-DL".data, "Web-DL".data, "WEBDL".data, "Baha".data,
   "BDRip".data, "B-Global".data]

/-- Modelled from the spec: the source-tag normalizer (spec 4.4) — first
vocabulary token occurring in the title; absent when no token matches. -/
def findSource : List Char → Option String
  | [] => none
  | c :: rest =>
    match sourceVocab.find? (fun v => v.isPrefixOf (c :: rest)) with
    | some v => some ⟨v⟩
    | none => findSource rest

/-- Modelled from the spec: the subtitle-tag normalizer (spec 4.4 with spec 3's
`sub` field) — first bracket segment of the metadata block that mentions a
subtitle annotation (contains `字`, or is a plain `CHS`/`CHT`/`GB` language tag). -/
def findSub (meta : List Char) : Option String :=
  match (splitBr meta).find?
      (fun seg => seg.contains '字' || seg = "CHS".data || seg = "CHT".data || seg = "GB".data) with
  | some seg => some ⟨seg⟩
  | none => none

/-- The structured record extracted from one release title (spec 3).  `group`
is never absent (empty string when undetectable); `episode` is present on
every successful parse; the other fields are optional. -/
structure ParsedRelease where
  group : String
  title_zh : Option String
  title_en : Option String
  title_jp : Option String
  season : Nat
  episode : Nat
  resolution : Option String
  source : Option String
  sub : Option String
deriving Repr, DecidableEq

/-- Modelled from the spec: `raw_parser` of the absent
`module.parser.analyser.raw_parser` — the whole pipeline (spec 2): group
extraction, structural splitting through the ordered template cascade, season
extraction and stripping, name processing, and metadata normalization.  `none`
is the no-match sentinel returned when no template in the cascade matches; the
function is total, so no input can raise.  (Lean identifiers may not end in
the suffix of the Python name, hence the camel-case spelling.) -/
def rawParser (content : String) : Option ParsedRelease :=
  let cs := content.data
  match splitStructure (dropGroupTag cs) with
  | none => none
  | some (nameChars, ep, metaChars) =>
    let titles := nameProcess (stripSeasonChars nameChars)
    some
      { group := get_group content
        title_zh := titles.title_zh
        title_en := titles.title_en
        title_jp := titles.title_jp
        season := (findSeason cs).getD 1
        episode := ep
        resolution := findResolution cs
        source := findSource cs
        sub := findSub metaChars }

/-- One media file queued for renaming (`module.models.EpisodeFile`), with the
fields exercised by the renamer: source path, parsed title, season, episode
and file-name suffix. -/
structure EpisodeFile where
  media_path : String
  title : String
  season : Nat
  episode : Int
  suffix : String
deriving Repr, DecidableEq

/-- Two-digit zero-padded rendering of a natural number. -/
def pad2 (n : Nat) : String :=
  if n < 10 then ⟨'0' :: (Nat.repr n).data⟩ else Nat.repr n

/-- Two-digit rendering of an integer episode number (episode numbers reaching
the renamer are non-negative). -/
def pad2Int (i : Int) : String :=
  pad2 i.toNat

/-- Modelled from the spec: episode-offset application inside
`Renamer.gen_path` of the absent `module.manager.renamer` (spec 6: the
renaming consumer "must treat episode 0 as immune to any configured
episode-offset shifting, since offsets exist to correct numbering drift in
regular episodes, not to renumber specials").  Episode 0 is returned
unchanged for every offset; any other episode is shifted by the offset. -/
def applyOffset (episode : Int) (episode_offset : Int) : Int :=
  if episode = 0 then 0 else episode + episode_offset

/-- Modelled from the spec: `Renamer.gen_path` of the absent
`module.manager.renamer` — computes the destination file name from
season/episode/title (spec 6), in the `SxxEyy` form pinned by the
repository's tests (`test_issue_bugs.py`, issue #977): method `pn` keeps the
parsed title, method `advance` substitutes the bangumi name, any other method
leaves the path unchanged. -/
def Renamer.gen_path (ep : EpisodeFile) (bangumi_name : String)
    (method : String) (episode_offset : Int) : String :=
  let newEp := applyOffset ep.episode episode_offset
  if method = "pn" then
    ep.title ++ " S" ++ pad2 ep.season ++ "E" ++ pad2Int newEp ++ ep.suffix
  else if method = "advance" then
    bangumi_name ++ " S" ++ pad2 ep.season ++ "E" ++ pad2Int newEp ++ ep.suffix
  else ep.media_path

/-- Executable substring test: `needle` occurs contiguously in `hay`. -/
def containsSub (needle hay : String) : Bool :=
  hay.data.tails.any (fun t => needle.data.isPrefixOf t)

/-- Split a string on commas (the filter-string separator). -/
def commaSplit (s : String) : List String :=
  (splitOnAux (fun c => c = ',') [] s.data).map (fun l => (⟨l⟩ : String))

/-- Join strings with the alternation bar, modelling
`filter_str.replace(",", "|")` in `RSSEngine._get_filter_pattern`. -/
def barJoin : List String → String
  | [] => ""
  | [s] => s
  | s :: rest => s ++ "|" ++ barJoin rest

/-- Modelled from the spec: pattern-syntax validity for a filter string
(spec 5 / 7, error class InvalidFilterSyntax: a filter "contains unbalanced
brackets or parentheses" or a dangling escape).  Scans the pattern tracking
parenthesis depth, an open character class, and a pending escape. -/
def validPatternAux : List Char → Nat → Bool → Bool → Bool
  | [], depth, inClass, esc => depth = 0 && !inClass && !esc
  | c :: rest, depth, inClass, esc =>
    if esc then validPatternAux rest depth inClass false
    else if c = '\\' then validPatternAux rest depth inClass true
    else if inClass then
      (if c = ']' then validPatternAux rest depth false false
       else validPatternAux rest depth true false)
    else if c = '[' then validPatternAux rest depth true false
    else if c = '(' then validPatternAux rest (depth + 1) false false
    else if c = ')' then
      (match depth with
       | 0 => false
       | d + 1 => validPatternAux rest d false false)
    else validPatternAux rest depth false false

/-- A pattern string is syntactically valid for compilation. -/
def isValidPattern (p : String) : Bool :=
  validPatternAux p.data 0 false false

/-- A compiled filter: either a pattern handed to the external matching engine,
or the escaped-literal fallback holding the comma-separated parts verbatim. -/
inductive FilterPattern where
  | regex (pattern : String)
  | literal (parts : List String)
deriving Repr, DecidableEq

/-- Modelled from the spec: `RSSEngine._get_filter_pattern` of the absent
`module.rss.engine` (spec 5: the filter-pattern cache memoizes a pure
computation, "with a fallback to escaped-literal matching when the filter
string is not valid pattern syntax ... rather than raising").  The memoization
table caches exactly this pure function and is elided.  The leading underscore
of the Python name is dropped. -/
def RSSEngine.get_filter_pattern (filter_str : String) : FilterPattern :=
  let pattern := barJoin (commaSplit filter_str)
  if isValidPattern pattern then .regex pattern
  else .literal (commaSplit filter_str)

/-- Escaped-literal matching used by the fallback filter: some comma-separated
part occurs verbatim in the candidate string. -/
def literalSearch (parts : List String) (candidate : String) : Bool :=
  parts.any (fun p => containsSub p candidate)

/-- Interface of the host `ipaddress` library as used by
`module/mcp/security.py` (an external collaborator): address parsing
(`ip_address`, failure as `none` for `ValueError`), network parsing
(`ip_network`), and network membership.  The access-control results proved
below hold for every implementation of this interface. -/
structure IpLib where
  Addr : Type
  Net : Type
  ip_address : String → Option Addr
  ip_network : String → Option Net
  memNet : Addr → Net → Bool

/-- `_parse_network` of `module/mcp/security.py` (lines 16-22): parse one CIDR
string, `none` on `ValueError`; the `lru_cache` decorator memoizes this pure
function and is elided. -/
def parse_network (lib : IpLib) (cidr : String) : Option lib.Net :=
  lib.ip_network cidr

/-- `_is_allowed` of `module/mcp/security.py` (lines 25-35): the host must
parse as an IP address and fall within some CIDR range of the whitelist; an
unparsable host, or any whitelist entry that fails to parse, contributes
`False`.  The leading underscore of the Python name is dropped. -/
def is_allowed (lib : IpLib) (host : String) (whitelist : List String) : Bool :=
  match lib.ip_address host with
  | none => false
  | some addr =>
    whitelist.any (fun cidr =>
      match parse_network lib cidr with
      | some net => lib.memNet addr net
      | none => false)

/-- `Security` of `module/models/config.py` (lines 222-245): the four
access-control lists, all defaulting to empty. -/
structure Security where
  login_whitelist : List String := []
  login_tokens : List String := []
  mcp_whitelist : List String := []
  mcp_tokens : List String := []
deriving Repr, DecidableEq

/-- The parts of a Starlette request read by the access-control code: the
`Authorization` header and the client host (absent when `request.client` is
`None`). -/
structure McpRequest where
  authorization : Option String
  clientHost : Option String
deriving Repr, DecidableEq

/-- Outcome of `McpAccessMiddleware.dispatch`: forward to `call_next`, or
reject with the HTTP 403 JSON response. -/
inductive DispatchResult where
  | forwarded
  | rejected403
deriving Repr, DecidableEq

/-- `McpAccessMiddleware.dispatch` of `module/mcp/security.py` (lines 51-68):
a non-empty bearer token listed in `mcp_tokens` forwards the request; failing
that, a truthy client host allowed by the `mcp_whitelist` CIDR ranges
forwards it; everything else is rejected with status 403. -/
def McpAccessMiddleware.dispatch (lib : IpLib) (sec : Security)
    (req : McpRequest) : DispatchResult :=
  let auth := req.authorization.getD ""
  let bearerOk :=
    if "Bearer ".data.isPrefixOf auth.data then
      let token : String := ⟨auth.data.drop 7⟩
      !token.data.isEmpty && sec.mcp_tokens.contains token
    else false
  if bearerOk then .forwarded
  else
    match req.clientHost with
    | some h =>
      if !h.data.isEmpty && is_allowed lib h sec.mcp_whitelist then .forwarded
      else .rejected403
    | none => .rejected403

/-- Outcome of the `check_login_ip` FastAPI dependency: return normally, or
raise HTTP 403. -/
inductive LoginCheck where
  | accepted
  | forbidden403
deriving Repr, DecidableEq

/-- `check_login_ip` of `module/security/api.py` (lines 25-38): an empty
`login_whitelist` accepts every client; otherwise a missing or empty client
host, or a host outside the whitelist, raises HTTP 403. -/
def check_login_ip (lib : IpLib) (whitelist : List String)
    (clientHost : Option String) : LoginCheck :=
  if whitelist.isEmpty then .accepted
  else
    match clientHost with
    | none => .forbidden403
    | some h =>
      if !h.data.isEmpty && is_allowed lib h whitelist then .accepted
      else .forbidden403

/-- A trivial instance of the `ipaddress` interface, used to instantiate the
universally quantified access-control results at a concrete value. -/
def unitIpLib : IpLib :=
  { Addr := Unit, Net := Unit
    ip_address := fun _ => some ()
    ip_network := fun _ => none
    memNet := fun _ _ => false }

theorem splitOnAux_append (p : Char → Bool) (xs : List Char)
    (h : ∀ c ∈ xs, p c = false) :
    ∀ acc ys, splitOnAux p acc (xs ++ ys) = splitOnAux p (xs.reverse ++ acc) ys := by
  induction xs with
  | nil => intro acc ys; simp
  | cons c cs ih =>
    intro acc ys
    have hc : p c = false := h c (List.mem_cons_self _ _)
    have h' : ∀ d ∈ cs, p d = false := fun d hd => h d (List.mem_cons_of_mem _ hd)
    calc splitOnAux p acc ((c :: cs) ++ ys)
        = splitOnAux p (c :: acc) (cs ++ ys) := by simp [splitOnAux, hc]
      _ = splitOnAux p (cs.reverse ++ (c :: acc)) ys := ih h' _ _
      _ = splitOnAux p ((c :: cs).reverse ++ acc) ys := by
          rw [List.reverse_cons, List.append_assoc]; rfl

theorem splitOnAux_free (p : Char → Bool) (xs : List Char)
    (h : ∀ c ∈ xs, p c = false) (acc : List Char) :
    splitOnAux p acc xs = [acc.reverse ++ xs] := by
  have := splitOnAux_append p xs h acc []
  rw [List.append_nil] at this
  rw [this]
  simp [splitOnAux]

theorem bracketFree_chars {l : List Char} (h : bracketFree l = true) :
    ∀ c ∈ l, isBrChar c = false := by
  intro c hc
  have := (List.all_eq_true.mp h) c hc
  simpa using this

/-- Any successful parse takes its season from `findSeason` over the whole
title, defaulting to 1. -/
theorem season_of_parse (content : String) (r : ParsedRelease)
    (h : rawParser content = some r) :
    r.season = (findSeason content.data).getD 1 := by
  simp only [rawParser] at h
  split at h
  · exact absurd h (by simp)
  · injection h with h'
    subst h'
    rfl

theorem get_group_no_brackets (s : String) (h : bracketFree s.data = true) :
    get_group s = "" := by
  simp only [get_group, splitBr]
  rw [splitOnAux_free isBrChar s.data (bracketFree_chars h) []]
  simp

theorem get_group_single_pair (c rest : String) (hc : c.data ≠ [])
    (hcf : bracketFree c.data = true) (hrf : bracketFree rest.data = true) :
    get_group ("[" ++ c ++ "]" ++ rest) = strTrim c := by
  have hdata : ("[" ++ c ++ "]" ++ rest).data = '[' :: (c.data ++ (']' :: rest.data)) := by
    rw [String.data_append, String.data_append, String.data_append]
    show ['['] ++ c.data ++ [']'] ++ rest.data = _
    simp
  simp only [get_group, splitBr, hdata]
  rw [show splitOnAux isBrChar [] ('[' :: (c.data ++ (']' :: rest.data)))
        = [] :: splitOnAux isBrChar [] (c.data ++ (']' :: rest.data)) from by
      simp [splitOnAux, isBrChar]]
  rw [splitOnAux_append isBrChar c.data (bracketFree_chars hcf) [] (']' :: rest.data)]
  rw [show splitOnAux isBrChar (c.data.reverse ++ []) (']' :: rest.data)
        = (c.data.reverse ++ []).reverse :: splitOnAux isBrChar [] rest.data from by
      simp [splitOnAux, isBrChar]]
  rw [splitOnAux_free isBrChar rest.data (bracketFree_chars hrf) []]
  have hne : c.data.isEmpty = false := by
    simp [List.isEmpty_iff, hc]
  simp [List.find?, hne, strTrim]

/-- Claim C1: for the release title "[ANi] 29 岁单身中坚冒险家的日常 - 07 ..."
whose name begins with a digit run followed by a space and CJK text and whose
episode token follows the dash delimiter, the parser does not take the leading
digit run as the episode: the episode is the number after the dash (7) and the
digits stay in the Chinese title. -/
theorem claim_c1_number_prefix_guard :
    (rawParser "[ANi] 29 岁单身中坚冒险家的日常 - 07 [1080P][Baha][WEB-DL][AAC AVC][CHT][MP4]").map
      (fun r => (r.episode, r.title_zh))
    = some (7, some "29 岁单身中坚冒险家的日常") := rfl

/-- Claim C2: an `EpisodeFile` with episode 0 keeps `E00` in the generated
path for every episode offset (0, +1 and -12 included), while a regular
episode 13 with offset -12 is renamed to `E01`; the `advance` method with
episode 0 produces exactly "Bangumi Name S01E00.mkv". -/
theorem claim_c2_episode_zero_offset :
    (∀ episode_offset : Int,
      containsSub "E00"
        (Renamer.gen_path ⟨"old.mkv", "Fate strange Fake", 1, 0, ".mkv"⟩
          "Fate strange Fake" "pn" episode_offset) = true)
    ∧ containsSub "E01"
        (Renamer.gen_path ⟨"old.mkv", "Test", 1, 13, ".mkv"⟩ "Test" "pn" (-12)) = true
    ∧ Renamer.gen_path ⟨"old.mkv", "Test", 1, 0, ".mkv"⟩ "Bangumi Name" "advance" 0
        = "Bangumi Name S01E00.mkv" := by
  refine ⟨?_, rfl, ?_⟩
  · intro o
    unfold Renamer.gen_path
    rw [show (⟨"old.mkv", "Fate strange Fake", 1, 0, ".mkv"⟩ : EpisodeFile).episode = 0 from rfl]
    rw [show ∀ oo, applyOffset 0 oo = 0 from fun _ => rfl]
    rfl
  · rfl

/-- Claim C2 witness: the universally quantified conjunct instantiated at the
offset -12. -/
theorem claim_c2_witness :
    containsSub "E00"
      (Renamer.gen_path ⟨"old.mkv", "Fate strange Fake", 1, 0, ".mkv"⟩
        "Fate strange Fake" "pn" (-12)) = true :=
  claim_c2_episode_zero_offset.1 (-12)

/-- Claim C3: every input of the two documented unsupported conventions — the
Atlas bracket-delimited `[group][title][episode_tag]` format and the pre-air
`[NNPre]` marker — yields the no-match sentinel `none` (and, the embedding
being a total function, no exception). -/
theorem claim_c3_unsupported_return_none :
    rawParser "[KitaujiSub] Shikanoko Nokonoko Koshitantan [01Pre][WebRip][HEVC_AAC][CHS_JP].mp4" = none
    ∧ rawParser "[KitaujiSub] Shikanoko Nokonoko Koshitantan [01Pre][WebRip][HEVC_AAC][CHT_JP].mp4" = none
    ∧ rawParser "[阿特拉斯字幕组·雪原市出差所][命运-奇异赝品_Fate／strange Fake][04_半神们的卡农曲][简繁日内封PGS][日语配音版_Japanese Dub][Web-DL Remux][1080p AVC AAC].mkv" = none
    ∧ rawParser "[阿特拉斯字幕组·雪原市出差所][命运-奇异赝品_Fate／strange Fake][07_神自黄昏归来][简繁日内封PGS][日语配音版_Japanese Dub][Web-DL Remux][1080p AVC AAC].mkv" = none
    ∧ rawParser "[阿特拉斯字幕组·雪原市出差所][命运-奇异赝品_Fate／strange Fake][03_无英灵的战斗][简繁日内封PGS][日语配音版_Japanese Dub][Web-DL Remux][1080p AVC AAC].mkv" = none
    ∧ rawParser "[阿特拉斯字幕组·雪原市出差所][命运-奇异赝品_Fate／strange Fake][04_半神们的卡农曲][简繁日内封PGS][日语配音版_Japanese Dub][Web-DL Remux][1080p AVC AAC]" = none
    ∧ rawParser "[阿特拉斯字幕组·雪原市出差所][命运-奇异赝品_Fate／strange Fake][07_神自黄昏归来][简繁日内封PGS][日语配音版_Japanese Dub][Web-DL Remux][1080p AVC AAC]" = none :=
  ⟨rfl, rfl, rfl, rfl, rfl, rfl, rfl⟩

/-- Claim C4: the group extractor is total and never raises; with no bracket
characters present (hence also on the empty string) it returns the empty
string, on empty brackets it returns the empty string, and on a title opening
with a single bracket pair of non-empty bracket-free content it returns that
content trimmed. -/
theorem claim_c4_get_group_safe :
    (∀ s : String, bracketFree s.data = true → get_group s = "")
    ∧ get_group "" = ""
    ∧ get_group "[]" = ""
    ∧ ∀ c rest : String, c.data ≠ [] → bracketFree c.data = true →
        bracketFree rest.data = true →
        get_group ("[" ++ c ++ "]" ++ rest) = strTrim c :=
  ⟨get_group_no_brackets, rfl, rfl, get_group_single_pair⟩

/-- Claim C4 witness: the no-bracket conjunct at "No Brackets Title" and the
single-pair conjunct at "[GroupName] Some Title". -/
theorem claim_c4_witness :
    get_group "No Brackets Title" = "" ∧ get_group "[GroupName] Some Title" = "GroupName" := by
  constructor
  · exact claim_c4_get_group_safe.1 "No Brackets Title" (by decide)
  · have h := claim_c4_get_group_safe.2.2.2 "GroupName" " Some Title"
      (by decide) (by decide) (by decide)
    rw [show ("[" ++ "GroupName" ++ "]" ++ " Some Title" : String)
          = "[GroupName] Some Title" from rfl] at h
    rw [show strTrim "GroupName" = "GroupName" from rfl] at h
    exact h

/-- Claim C5: the filter string "720,[字幕组" is not valid pattern syntax, so
filter compilation takes the escaped-literal fallback (no pattern-syntax error
can propagate, compilation being total), and the fallback still matches
literal occurrences of "720" and "[字幕组" in candidate strings. -/
theorem claim_c5_filter_fallback :
    isValidPattern (barJoin (commaSplit "720,[字幕组")) = false
    ∧ RSSEngine.get_filter_pattern "720,[字幕组" = .literal ["720", "[字幕组"]
    ∧ literalSearch ["720", "[字幕组"] "720p video" = true
    ∧ literalSearch ["720", "[字幕组"] "[字幕组 release" = true
    ∧ literalSearch ["720", "[字幕组"] "1080p no match" = false :=
  ⟨rfl, rfl, rfl, rfl, rfl⟩

/-- Claim C6: two otherwise-identical titles carrying the Chinese-numeral
season token "第二季" and the English form "2nd Season" both parse with
season 2; and any title without a season marker parses with the default
season 1. -/
theorem claim_c6_season_markers :
    ((rawParser "[LoliHouse] 狼与香辛料 第二季 / Spice and Wolf - 01 [WebRip 1080p HEVC-10bit AAC][简繁内封字幕]").map
        (fun r => r.season) = some 2
     ∧ (rawParser "[LoliHouse] 狼与香辛料 2nd Season / Spice and Wolf - 01 [WebRip 1080p HEVC-10bit AAC][简繁内封字幕]").map
        (fun r => r.season) = some 2)
    ∧ ∀ (content : String) (r : ParsedRelease),
        rawParser content = some r → findSeason content.data = none → r.season = 1 := by
  refine ⟨⟨rfl, rfl⟩, ?_⟩
  intro content r h hm
  rw [season_of_parse content r h, hm]
  rfl

/-- Claim C6 witness: the default-season conjunct at the marker-free title
"[G] 测试 - 02 [720P]" and its concrete parse result. -/
theorem claim_c6_witness :
    (⟨"G", some "测试", none, none, 1, 2, some "720P", none, none⟩ : ParsedRelease).season = 1 :=
  claim_c6_season_markers.2 "[G] 测试 - 02 [720P]"
    ⟨"G", some "测试", none, none, 1, 2, some "720P", none, none⟩ rfl rfl

/-- Claim C7: the compound episode notation `NN(MM)` yields the first number
as the canonical episode — the title carrying the tag "[02(57)]" parses with
episode 2, not 57, and the tag recogniser itself maps "02(57)" to 2. -/
theorem claim_c7_compound_episode :
    (rawParser "【豌豆字幕组&风之圣殿字幕组】★04月新番[鬼灭之刃 柱训练篇 / Kimetsu_no_Yaiba-Hashira_Geiko_Hen][02(57)][简体][1080P][MP4]").map
      (fun r => r.episode) = some 2
    ∧ epTag "02(57)".data = some 2 :=
  ⟨rfl, rfl⟩

/-- Claim C8 counterexample: on the mixed-script name block of the issue #766
title, whose first contiguous script run is the single character "从", the
parser does not return that first run as the title — refuting the claim that
the name processor takes only the first contiguous script run. -/
theorem claim_c8_counterexample :
    ¬ ((rawParser "[ANi]  从 Lv2 开始开外挂的前勇者候补过著悠哉异世界生活 - 04 [1080P][Baha][WEB-DL][AAC AVC][CHT][MP4]").map
        (fun r => r.title_zh) = some (some "从")) := by
  intro h
  rw [show (rawParser "[ANi]  从 Lv2 开始开外挂的前勇者候补过著悠哉异世界生活 - 04 [1080P][Baha][WEB-DL][AAC AVC][CHT][MP4]").map
        (fun r => r.title_zh) = some (some "开始开外挂的前勇者候补过著悠哉异世界生活") from rfl] at h
  exact absurd h (by decide)

/-- Claim C8 amended: for a no-slash name block mixing CJK and Latin scripts,
the name processor splits on whitespace and takes the token opening with at
least two CJK characters at the first position — or, failing that, at the
last position — as the Chinese title, keeping the remaining tokens, joined by
spaces, as the English title rather than discarding them: the issue #798
block keeps "身为" as `title_zh` with the rest as `title_en`, and the issue
\#766 block keeps the trailing CJK run as `title_zh` with "从 Lv2" as
`title_en`. -/
theorem claim_c8_mixed_script_split :
    (rawParser "[ANi] 身为 VTuber 的我因为忘记关台而成了传说 - 01 [1080P][Baha][WEB-DL][AAC AVC][CHT][MP4][379.34 MB]").map
      (fun r => (r.title_zh, r.title_en))
      = some (some "身为", some "VTuber 的我因为忘记关台而成了传说")
    ∧ (rawParser "[ANi]  从 Lv2 开始开外挂的前勇者候补过著悠哉异世界生活 - 04 [1080P][Baha][WEB-DL][AAC AVC][CHT][MP4]").map
      (fun r => (r.title_zh, r.title_en))
      = some (some "开始开外挂的前勇者候补过著悠哉异世界生活", some "从 Lv2")
    ∧ mixedSplit "身为 VTuber 的我因为忘记关台而成了传说".data
      = ⟨some "身为", some "VTuber 的我因为忘记关台而成了传说", none⟩ :=
  ⟨rfl, rfl, rfl⟩

/-- Claim C9: the parser is a deterministic pure function — the same input
string always yields the same result record (and, the embedding being a total
function into an `Option`, every failure is a data value rather than an
exception). -/
theorem claim_c9_deterministic :
    ∀ (s : String) (r₁ r₂ : Option ParsedRelease),
      rawParser s = r₁ → rawParser s = r₂ → r₁ = r₂ :=
  fun _ _ _ h1 h2 => h1.symm.trans h2

/-- Claim C9 witness: determinism instantiated at a concrete title with its
evaluated parse result. -/
theorem claim_c9_witness :
    (some ⟨"G", some "测试", none, none, 1, 2, some "720P", none, none⟩ : Option ParsedRelease)
      = some ⟨"G", some "测试", none, none, 1, 2, some "720P", none, none⟩ :=
  claim_c9_deterministic "[G] 测试 - 02 [720P]"
    (some ⟨"G", some "测试", none, none, 1, 2, some "720P", none, none⟩)
    (some ⟨"G", some "测试", none, none, 1, 2, some "720P", none, none⟩) rfl rfl

/-- With an empty whitelist the CIDR loop of `_is_allowed` has nothing to
accept, so every host — parsable or not — is denied. -/
theorem is_allowed_nil (lib : IpLib) (host : String) :
    is_allowed lib host [] = false := by
  simp only [is_allowed]
  cases lib.ip_address host <;> simp

/-- Claim C10: MCP access is deny-by-default while login access is
allow-by-default — with both `mcp_whitelist` and `mcp_tokens` empty,
`McpAccessMiddleware.dispatch` rejects every request with HTTP 403, and
`_is_allowed` denies every host (malformed ones included) against an empty
whitelist, for every implementation of the `ipaddress` interface; whereas an
empty `login_whitelist` makes `check_login_ip` accept every client. -/
theorem claim_c10_deny_by_default :
    (∀ (lib : IpLib) (host : String), is_allowed lib host [] = false)
    ∧ (∀ (lib : IpLib) (sec : Security) (req : McpRequest),
        sec.mcp_whitelist = [] → sec.mcp_tokens = [] →
        McpAccessMiddleware.dispatch lib sec req = .rejected403)
    ∧ (∀ (lib : IpLib) (clientHost : Option String),
        check_login_ip lib [] clientHost = .accepted) := by
  refine ⟨is_allowed_nil, ?_, ?_⟩
  · intro lib sec req hw ht
    simp only [McpAccessMiddleware.dispatch, hw, ht]
    cases req.clientHost with
    | none => simp
    | some h => simp [is_allowed_nil]
  · intro lib clientHost
    simp [check_login_ip]

/-- Claim C10 witness: the three conjuncts instantiated at a concrete
interface implementation, request and hosts. -/
theorem claim_c10_witness :
    McpAccessMiddleware.dispatch unitIpLib ⟨[], [], [], []⟩
      ⟨some "Bearer abc", some "127.0.0.1"⟩ = .rejected403
    ∧ is_allowed unitIpLib "not-an-ip" [] = false
    ∧ check_login_ip unitIpLib [] (some "8.8.8.8") = .accepted :=
  ⟨claim_c10_deny_by_default.2.1 unitIpLib ⟨[], [], [], []⟩
      ⟨some "Bearer abc", some "127.0.0.1"⟩ rfl rfl,
   claim_c10_deny_by_default.1 unitIpLib "not-an-ip",
   claim_c10_deny_by_default.2.2 unitIpLib (some "8.8.8.8")⟩
